import Mathlib

/-!
Shallow embedding of the weather-backend repository (src/main.py and
src/api/weather_api.py) and verification of the frozen claims about it.

Modelling choices:
* Python floats are modelled as exact rationals (`ℚ`).
* A network interaction is modelled by an explicit outcome value passed to
  the function: either a failure (`requests` raised, non-2xx status, JSON
  error) or a parsed response with optional fields, mirroring the shapes the
  Python code inspects.
* A Python function that may raise an uncaught exception returns `Except`;
  one that catches everything returns a plain value.
* `datetime` instants compared in `get_hourly_weather` are abstract integer
  timestamps (minutes); calendar dates are a year/month/day record with
  Gregorian day arithmetic mirroring `timedelta(days=1)`.
-/

/-- Python `round(q, digits)`: round half to even at the given number of
decimal digits (the behaviour of `round` on exactly representable values). -/
def roundHalfEven (q : ℚ) : ℤ :=
  let f := ⌊q⌋
  let frac := q - f
  if frac < 1/2 then f
  else if 1/2 < frac then f + 1
  else if f % 2 = 0 then f else f + 1

def roundTo (digits : ℕ) (q : ℚ) : ℚ :=
  (roundHalfEven (q * 10 ^ digits) : ℚ) / 10 ^ digits

/-- Zero-pad a natural number to two digits, as `strftime` does. -/
def pad2 (n : ℕ) : String :=
  if n < 10 then "0" ++ toString n else toString n

/-- Zero-pad a year to four digits, as `strftime("%Y")` does. -/
def pad4 (n : ℕ) : String :=
  if n < 10 then "000" ++ toString n
  else if n < 100 then "00" ++ toString n
  else if n < 1000 then "0" ++ toString n
  else toString n

/-- A calendar date, as `datetime.date` (year/month/day). -/
structure Date where
  year : ℕ
  month : ℕ
  day : ℕ
deriving DecidableEq, Repr

def isLeapYear (y : ℕ) : Bool :=
  y % 4 = 0 && (y % 100 ≠ 0 || y % 400 = 0)

def daysInMonth (y : ℕ) (m : ℕ) : ℕ :=
  if m = 2 then (if isLeapYear y then 29 else 28)
  else if m = 4 ∨ m = 6 ∨ m = 9 ∨ m = 11 then 30
  else 31

/-- `d + timedelta(days=1)` on the calendar part. -/
def nextDay (d : Date) : Date :=
  if d.day < daysInMonth d.year d.month then ⟨d.year, d.month, d.day + 1⟩
  else if d.month < 12 then ⟨d.year, d.month + 1, 1⟩
  else ⟨d.year + 1, 1, 1⟩

/-- `d + timedelta(days=n)`. -/
def addDays (d : Date) : ℕ → Date
  | 0 => d
  | n + 1 => nextDay (addDays d n)

/-- `strftime("%Y-%m-%d")`. -/
def fmtDate (d : Date) : String :=
  pad4 d.year ++ "-" ++ pad2 d.month ++ "-" ++ pad2 d.day

/-- `strftime("%H:%M")` on an abstract timestamp counted in minutes. -/
def fmtHM (t : ℤ) : String :=
  pad2 (t / 60 % 24).toNat ++ ":" ++ pad2 (t % 60).toNat

/-- Python `str.strip()`: drop leading and trailing whitespace. -/
def pyStrip (s : String) : String :=
  ⟨((s.data.dropWhile Char.isWhitespace).reverse.dropWhile
      Char.isWhitespace).reverse⟩

/-- One entry of the geocoder's `results` array: the two fields the code
reads. -/
structure GeoResult where
  latitude : ℚ
  longitude : ℚ
deriving DecidableEq, Repr

/-- Outcome of the geocoding request: `failure` covers a raised exception
(network error, non-2xx via `raise_for_status`, JSON decode error);
`response` is a parsed body whose `results` key is absent (`none`) or a
(possibly empty) array. -/
inductive GeoOutcome where
  | failure
  | response (results : Option (List GeoResult))
deriving DecidableEq, Repr

/-- An uncaught Python exception escaping a function in
`src/api/weather_api.py`. -/
inductive PyExn where
  | requestException
  | indexError
deriving DecidableEq, Repr

namespace Main

/-- `get_location` from `src/main.py` (lines 323–338): everything is inside
`try`, so every failure — including network errors — yields `(None, None)`;
a body with no `results` key or an empty `results` array also yields
`(None, None)`; otherwise the first result's coordinates. -/
def get_location : GeoOutcome → Option ℚ × Option ℚ
  | .failure => (none, none)
  | .response none => (none, none)
  | .response (some []) => (none, none)
  | .response (some (loc :: _)) => (some loc.latitude, some loc.longitude)

/-- `predict_rain` from `src/main.py` (lines 379–382): the two-level
classifier. -/
def predict_rain (precipitation humidity cloud_cover : ℚ) : String :=
  if precipitation > 1 ∨ (humidity > 80 ∧ cloud_cover > 70) then
    "High chance of rain"
  else
    "Low chance of rain"

end Main

namespace WeatherApi

/-- `KERALA_COORDS` from `src/api/weather_api.py` (lines 3–18). -/
def KERALA_COORDS : List (String × ℚ × ℚ) :=
  [("Thiruvananthapuram", (8.5241, 76.9366)),
   ("Kollam", (8.8932, 76.6141)),
   ("Pathanamthitta", (9.2648, 76.7870)),
   ("Alappuzha", (9.4981, 76.3388)),
   ("Kottayam", (9.5916, 76.5222)),
   ("Idukki", (9.8492, 76.9770)),
   ("Ernakulam", (9.9816, 76.2999)),
   ("Thrissur", (10.5276, 76.2144)),
   ("Palakkad", (10.7867, 76.6548)),
   ("Malappuram", (11.0732, 76.0740)),
   ("Kozhikode", (11.2588, 75.7804)),
   ("Wayanad", (11.6854, 76.1320)),
   ("Kannur", (11.8745, 75.3704)),
   ("Kasaragod", (12.4996, 74.9869))]

/-- `get_location` from `src/api/weather_api.py` (lines 21–36): a
case-sensitive hit in the static table returns immediately; otherwise the
network response is consulted with no `try` around it, so a raised request
or JSON error propagates; a body with no `results` key yields `(None, None)`;
`data["results"][0]` on an empty array raises `IndexError`. -/
def get_location (place : String) (net : GeoOutcome) :
    Except PyExn (Option ℚ × Option ℚ) :=
  match KERALA_COORDS.lookup place with
  | some (la, lo) => .ok (some la, some lo)
  | none =>
    match net with
    | .failure => .error .requestException
    | .response none => .ok (none, none)
    | .response (some []) => .error .indexError
    | .response (some (r :: _)) => .ok (some r.latitude, some r.longitude)

/-- `predict_rain` from `src/api/weather_api.py` (lines 72–77): the
three-level classifier. -/
def predict_rain (precipitation humidity cloud_cover : ℚ) : String :=
  if precipitation > 0.1 then "Rain likely"
  else if humidity > 75 ∧ cloud_cover > 60 then "Possible rain"
  else "Low rain chance"

end WeatherApi

/-- The `current_weather` object of an Open-Meteo response; either field may
be absent (`cw.get(...)` is used with a default). -/
structure CurrentWeather where
  temperature : Option ℚ
  windspeed : Option ℚ
deriving DecidableEq, Repr

/-- The `hourly` object of the live-weather response: the three arrays
`data["hourly"][...]` indexed at 0 by the code (an empty array raises
`IndexError`, caught by the surrounding `try`). -/
structure HourlyFields where
  relativehumidity_2m : List ℚ
  precipitation : List ℚ
  cloudcover : List ℚ
deriving DecidableEq, Repr

/-- Outcome of the live-weather request in `src/main.py`: a raised exception
(network error, timeout, non-2xx, JSON error), or a parsed body whose
`current_weather` and `hourly` keys may each be absent. -/
inductive LiveOutcome where
  | failure
  | response (current_weather : Option CurrentWeather) (hourly : Option HourlyFields)
deriving DecidableEq, Repr

/-- The record `get_live_weather` in `src/main.py` returns. -/
structure LiveWeather where
  temperature : ℚ
  wind_speed : ℚ
  humidity : ℚ
  precipitation : ℚ
  cloud_cover : ℚ
deriving DecidableEq, Repr

namespace Main

/-- The hardcoded record returned by the `except` branch of
`get_live_weather` (lines 370–376). -/
def fallbackLive : LiveWeather :=
  { temperature := 30, wind_speed := 10, humidity := 70,
    precipitation := 0, cloud_cover := 40 }

/-- `get_live_weather` from `src/main.py` (lines 341–376): the whole body is
inside `try`, and the `except` branch returns `fallbackLive`; a body missing
`current_weather` or `hourly` raises `ValueError` into that branch; an empty
hourly array raises `IndexError` into it; `cw.get("temperature", 30.0)` and
`cw.get("windspeed", 10.0)` default absent fields. -/
def get_live_weather : LiveOutcome → LiveWeather
  | .failure => fallbackLive
  | .response none _ => fallbackLive
  | .response _ none => fallbackLive
  | .response (some cw) (some h) =>
    match h.relativehumidity_2m, h.precipitation, h.cloudcover with
    | hu :: _, pr :: _, cl :: _ =>
      { temperature := cw.temperature.getD 30,
        wind_speed := cw.windspeed.getD 10,
        humidity := hu, precipitation := pr, cloud_cover := cl }
    | _, _, _ => fallbackLive

end Main

/-- One point of the hourly forecast as returned to the UI: the
`strftime("%H:%M")` string and the rounded temperature. -/
structure HourlyPoint where
  time : String
  temperature : ℚ
deriving DecidableEq, Repr

/-- Outcome of the hourly request in `src/main.py`: a raised exception
anywhere in the `try` block, or the parsed and zipped
`(data["hourly"]["time"], data["hourly"]["temperature_2m"])` series with
times already converted by `datetime.fromisoformat` to abstract instants. -/
inductive HourlyOutcome where
  | failure
  | ok (series : List (ℤ × ℚ))
deriving DecidableEq, Repr

namespace Main

def mkHourlyPoint (t : ℤ) (temp : ℚ) : HourlyPoint :=
  { time := fmtHM t, temperature := roundTo 1 temp }

/-- The selection loop of `get_hourly_weather` (lines 447–455): append each
entry whose time is `>= now`, and `break` as soon as the accumulated list's
length equals `hours` (a Python `int`, possibly non-positive). -/
def hourlyLoop (now : ℤ) (hours : ℤ) (acc : List HourlyPoint) :
    List (ℤ × ℚ) → List HourlyPoint
  | [] => acc
  | (t, temp) :: rest =>
    let acc' := if now ≤ t then acc ++ [mkHourlyPoint t temp] else acc
    if (acc'.length : ℤ) = hours then acc' else hourlyLoop now hours acc' rest

/-- The hardcoded list returned by the `except` branch of
`get_hourly_weather` (lines 461–467). -/
def fallbackHourly : List HourlyPoint :=
  [⟨"10:00", 29⟩, ⟨"11:00", 30⟩, ⟨"12:00", 31⟩, ⟨"13:00", 32⟩, ⟨"14:00", 31⟩]

/-- `get_hourly_weather` from `src/main.py` (lines 427–467). -/
def get_hourly_weather (now : ℤ) (hours : ℤ) : HourlyOutcome → List HourlyPoint
  | .failure => fallbackHourly
  | .ok series => hourlyLoop now hours [] series

end Main

/-- Outcome of the daily-forecast request in `src/main.py`
(`get_weather_data`): a raised exception, or the three parsed arrays of
`data["daily"]`. -/
inductive DailyOutcome where
  | failure
  | ok (dates : List String) (temp_max : List ℚ) (temp_min : List ℚ)
deriving DecidableEq, Repr

/-- The record `get_weather_data` returns. -/
structure DailyData where
  dates : List String
  temp_max : List ℚ
  temp_min : List ℚ
deriving DecidableEq, Repr

/-- A fault escaping a FastAPI endpoint: a raised `HTTPException` with a
status code and detail, or an uncaught Python exception (which FastAPI maps
to a 500 response). -/
inductive Fault where
  | http (status : ℕ) (detail : String)
  | uncaught (exn : String)
deriving DecidableEq, Repr

/-- The feature row handed to `model.predict` by `POST /weather`
(lines 507–514). -/
structure ModelInput where
  tmin : ℚ
  tmax : ℚ
  prcp : ℚ
  wspd : ℚ
  month : ℕ
  day : ℕ
deriving DecidableEq, Repr

/-- The `live_weather` object of the `POST /weather` response body. -/
structure LiveWeatherView where
  temperature : ℚ
  humidity : ℚ
  precipitation : ℚ
  cloud_cover : ℚ
  wind_speed : ℚ
  feels_like : ℚ
deriving DecidableEq, Repr

/-- The `tomorrow_prediction` object of the `POST /weather` response body. -/
structure TomorrowPrediction where
  predicted_avg_temperature : ℚ
  rain_status : String
deriving DecidableEq, Repr

/-- The `POST /weather` response body. -/
structure WeatherResponse where
  place : String
  lat : ℚ
  lon : Option ℚ
  live_weather : LiveWeatherView
  tomorrow_prediction : TomorrowPrediction
deriving DecidableEq, Repr

/-- One entry of the `GET /forecast7` response body. -/
structure ForecastDay where
  date : String
  tmax : ℚ
  tmin : ℚ
deriving DecidableEq, Repr

/-- The `GET /forecast7` response body. -/
structure Forecast7Response where
  place : String
  forecast : List ForecastDay
deriving DecidableEq, Repr

/-- The `GET /hourly` response body. -/
structure HourlyResponse where
  place : String
  hours : ℤ
  hourly_forecast : List HourlyPoint
deriving DecidableEq, Repr

namespace Main

/-- `get_weather_data` from `src/main.py` (lines 385–424): `None` when the
place does not resolve; on a raised request/JSON error the `except` branch
builds seven fallback days starting today, each with `tmax = 30.0` and
`tmin = 24.0`. -/
def get_weather_data (geo : GeoOutcome) (daily : DailyOutcome) (today : Date) :
    Option DailyData :=
  match get_location geo with
  | (none, _) => none
  | (some _, _) =>
    match daily with
    | .ok dates tmax tmin => some ⟨dates, tmax, tmin⟩
    | .failure =>
      some ⟨(List.range 7).map fun i => fmtDate (addDays today i),
            List.replicate 7 30, List.replicate 7 24⟩

/-- `get_weather` (the `POST /weather` handler) from `src/main.py`
(lines 482–533). `modelLoaded`/`predict` model the joblib regressor;
`now` is `datetime.now()`'s calendar date. -/
def get_weather (modelLoaded : Bool) (predict : ModelInput → ℚ)
    (reqPlace : String) (geo : GeoOutcome) (live : LiveOutcome) (now : Date) :
    Except Fault WeatherResponse :=
  if modelLoaded = false then .error (.http 500 "Model not loaded") else
  let place := pyStrip reqPlace
  if place = "" then .error (.http 400 "Place is required") else
  match get_location geo with
  | (none, _) => .error (.http 404 "Location not found")
  | (some la, lo) =>
    let weather := get_live_weather live
    let temperature := weather.temperature
    let humidity := weather.humidity
    let precipitation := weather.precipitation
    let cloud_cover := weather.cloud_cover
    let wind_speed := weather.wind_speed
    let feels_like := temperature + humidity * (5 / 100)
    let tomorrow := nextDay now
    let model_input : ModelInput :=
      { tmin := temperature - 2, tmax := temperature + 2,
        prcp := precipitation, wspd := wind_speed,
        month := tomorrow.month, day := tomorrow.day }
    let predicted_temp := predict model_input
    .ok
      { place := place, lat := la, lon := lo,
        live_weather :=
          { temperature := roundTo 1 temperature,
            humidity := roundTo 0 humidity,
            precipitation := roundTo 2 precipitation,
            cloud_cover := roundTo 0 cloud_cover,
            wind_speed := roundTo 1 wind_speed,
            feels_like := roundTo 1 feels_like },
        tomorrow_prediction :=
          { predicted_avg_temperature := roundTo 2 predicted_temp,
            rain_status := predict_rain precipitation humidity cloud_cover } }

/-- `forecast_7` (the `GET /forecast7` handler) from `src/main.py`
(lines 538–552): no `None` check remains, so an unresolved place makes
`data["dates"]` raise `TypeError` (an uncaught 500); otherwise the three
arrays are zipped into the forecast list. -/
def forecast_7 (place : String) (geo : GeoOutcome) (daily : DailyOutcome)
    (today : Date) : Except Fault Forecast7Response :=
  match get_weather_data geo daily today with
  | none => .error (.uncaught "TypeError")
  | some data =>
    .ok ⟨place,
      (data.dates.zip (data.temp_max.zip data.temp_min)).map fun p =>
        ⟨p.1, roundTo 1 p.2.1, roundTo 1 p.2.2⟩⟩

/-- `hourly_forecast` (the `GET /hourly` handler) from `src/main.py`
(lines 557–569): 404 when the place does not resolve; otherwise the result
of `get_hourly_weather` is returned unconditionally with a success status. -/
def hourly_forecast (place : String) (hours : ℤ) (geo : GeoOutcome)
    (hourly : HourlyOutcome) (now : ℤ) : Except Fault HourlyResponse :=
  match get_location geo with
  | (none, _) => .error (.http 404 "Location not found")
  | (some _, _) => .ok ⟨place, hours, get_hourly_weather now hours hourly⟩

end Main

/-- C2: the two-level classifier of `src/main.py` returns
"High chance of rain" iff `p > 1.0 ∨ (h > 80 ∧ c > 70)` and
"Low chance of rain" otherwise; in particular `(2, 0, 0)` and `(0, 85, 75)`
classify high and `(0, 50, 50)` classifies low. -/
theorem predict_rain_two_level_correct :
    (∀ p h c : ℚ,
      (Main.predict_rain p h c = "High chance of rain" ↔
        p > 1 ∨ (h > 80 ∧ c > 70)) ∧
      (Main.predict_rain p h c = "Low chance of rain" ↔
        ¬(p > 1 ∨ (h > 80 ∧ c > 70)))) ∧
    Main.predict_rain 2 0 0 = "High chance of rain" ∧
    Main.predict_rain 0 85 75 = "High chance of rain" ∧
    Main.predict_rain 0 50 50 = "Low chance of rain" := by
  refine ⟨fun p h c => ?_, by decide, by decide, by decide⟩
  by_cases hc : p > 1 ∨ (h > 80 ∧ c > 70)
  · simp only [Main.predict_rain, if_pos hc]
    exact ⟨by simp [hc], by simp [hc]⟩
  · simp only [Main.predict_rain, if_neg hc]
    exact ⟨by simp [hc], by simp [hc]⟩

/-- C7: the three-level classifier of `src/api/weather_api.py` is a total
function of its three arguments returning "Rain likely" iff `p > 0.1`,
"Possible rain" iff `¬(p > 0.1)` and `h > 75 ∧ c > 60`, and
"Low rain chance" in exactly the remaining cases. -/
theorem predict_rain_three_level_correct :
    ∀ p h c : ℚ,
      (WeatherApi.predict_rain p h c = "Rain likely" ↔ p > 0.1) ∧
      (WeatherApi.predict_rain p h c = "Possible rain" ↔
        ¬(p > 0.1) ∧ (h > 75 ∧ c > 60)) ∧
      (WeatherApi.predict_rain p h c = "Low rain chance" ↔
        ¬(p > 0.1) ∧ ¬(h > 75 ∧ c > 60)) := by
  intro p h c
  by_cases h1 : p > 0.1
  · simp only [WeatherApi.predict_rain, if_pos h1]
    exact ⟨by simp [h1], by simp [h1], by simp [h1]⟩
  · by_cases h2 : h > 75 ∧ c > 60
    · simp only [WeatherApi.predict_rain, if_neg h1, if_pos h2]
      exact ⟨by simp [h1], by simp [h1, h2], by simp [h2]⟩
    · simp only [WeatherApi.predict_rain, if_neg h1, if_neg h2]
      exact ⟨by simp [h1], by simp [h2], by simp [h1, h2]⟩

/-- C6: a place that is, case-sensitively, a key of `KERALA_COORDS` makes
`get_location` in `src/api/weather_api.py` return the table's coordinate,
and the result is the same for every behaviour of the network client
(including one that always fails). -/
theorem get_location_static_table_independent (place : String) (la lo : ℚ)
    (htab : WeatherApi.KERALA_COORDS.lookup place = some (la, lo)) :
    ∀ net net' : GeoOutcome,
      WeatherApi.get_location place net = .ok (some la, some lo) ∧
      WeatherApi.get_location place net = WeatherApi.get_location place net' := by
  intro net net'
  unfold WeatherApi.get_location
  rw [htab]
  exact ⟨rfl, rfl⟩

theorem get_location_static_table_independent_witness :
    WeatherApi.KERALA_COORDS.lookup "Kollam" = some (8.8932, 76.6141) ∧
    (WeatherApi.get_location "Kollam" .failure = .ok (some 8.8932, some 76.6141) ∧
     WeatherApi.get_location "Kollam" .failure =
       WeatherApi.get_location "Kollam" (.response (some [⟨1, 2⟩]))) :=
  ⟨rfl,
   get_location_static_table_independent "Kollam" 8.8932 76.6141 rfl
     .failure (.response (some [⟨1, 2⟩]))⟩

/-- C3 as stated is false on `src/api/weather_api.py`: a geocoder response
whose `results` array is present but empty makes its `get_location` raise
`IndexError` at `data["results"][0]` instead of returning `(None, None)`. -/
theorem get_location_empty_results_counterexample :
    WeatherApi.get_location "Paris" (.response (some [])) =
      .error .indexError ∧
    (Except.error .indexError : Except PyExn (Option ℚ × Option ℚ)) ≠
      .ok (none, none) :=
  ⟨rfl, fun h => Except.noConfusion h⟩

/-- C3 amended: in `src/main.py`, both a missing `results` field and an
empty `results` array yield `(None, None)`; in `src/api/weather_api.py`
(for a place outside the static table) only a missing `results` field
yields `(None, None)`, while an empty `results` array raises an uncaught
`IndexError`. -/
theorem get_location_no_results_behaviour :
    Main.get_location (.response none) = (none, none) ∧
    Main.get_location (.response (some [])) = (none, none) ∧
    ∀ place, WeatherApi.KERALA_COORDS.lookup place = none →
      WeatherApi.get_location place (.response none) = .ok (none, none) ∧
      WeatherApi.get_location place (.response (some [])) =
        .error .indexError := by
  refine ⟨rfl, rfl, fun place htab => ?_⟩
  unfold WeatherApi.get_location
  rw [htab]
  exact ⟨rfl, rfl⟩

theorem get_location_no_results_behaviour_witness :
    WeatherApi.KERALA_COORDS.lookup "Paris" = none ∧
    (WeatherApi.get_location "Paris" (.response none) = .ok (none, none) ∧
     WeatherApi.get_location "Paris" (.response (some [])) =
       .error .indexError) :=
  ⟨rfl, get_location_no_results_behaviour.2.2 "Paris" rfl⟩

/-- C4 as stated is false on `src/main.py`: its `get_location` catches every
exception, so a network failure — which is not a no-results/missing-results
response — also yields the NotFound value `(None, None)`. -/
theorem get_location_failure_counterexample :
    Main.get_location .failure = (none, none) ∧
    GeoOutcome.failure ≠ .response none ∧
    ∀ rs, GeoOutcome.failure ≠ .response (some rs) :=
  ⟨rfl, fun h => GeoOutcome.noConfusion h,
   fun _ h => GeoOutcome.noConfusion h⟩

/-- C4 amended: in `src/api/weather_api.py` (for a place outside the static
table) failures other than a missing-results response propagate as uncaught
exceptions, distinguishable from the `(None, None)` NotFound value; in
`src/main.py` every failure, including a network error, yields the NotFound
value `(None, None)`. -/
theorem get_location_failure_propagation :
    (∀ place, WeatherApi.KERALA_COORDS.lookup place = none →
      WeatherApi.get_location place .failure = .error .requestException ∧
      ∀ rs, WeatherApi.get_location place (.response (some (rs :: []))) =
        .ok (some rs.latitude, some rs.longitude)) ∧
    (∀ (e : PyExn) (r : Option ℚ × Option ℚ),
      (Except.error e : Except PyExn (Option ℚ × Option ℚ)) ≠ .ok r) ∧
    Main.get_location .failure = (none, none) := by
  refine ⟨fun place htab => ?_, fun e r h => Except.noConfusion h, rfl⟩
  unfold WeatherApi.get_location
  rw [htab]
  exact ⟨rfl, fun rs => rfl⟩

theorem get_location_failure_propagation_witness :
    WeatherApi.KERALA_COORDS.lookup "Paris" = none ∧
    (WeatherApi.get_location "Paris" .failure = .error .requestException ∧
     ∀ rs, WeatherApi.get_location "Paris" (.response (some (rs :: []))) =
       .ok (some rs.latitude, some rs.longitude)) :=
  ⟨rfl, get_location_failure_propagation.1 "Paris" rfl⟩

/-- A live-weather outcome on which the `try` block of `get_live_weather`
raises: a failed request, a body missing `current_weather` or `hourly`, or
an empty hourly array (an `IndexError` at index 0). -/
def liveFailure : LiveOutcome → Bool
  | .failure => true
  | .response none _ => true
  | .response _ none => true
  | .response (some _) (some h) =>
    h.relativehumidity_2m.isEmpty || h.precipitation.isEmpty ||
      h.cloudcover.isEmpty

/-- C9: `get_live_weather` in `src/main.py` is total — every failing outcome
yields the fixed fallback record `{30, 10, 70, 0, 40}`; a response carrying
`current_weather` without `temperature` or `windspeed` gets 30.0 / 10.0
substituted; and the success of `POST /weather` never depends on the
live-weather outcome. -/
theorem get_live_weather_total_with_fallback :
    (∀ o : LiveOutcome, liveFailure o = true →
      Main.get_live_weather o = Main.fallbackLive) ∧
    Main.fallbackLive =
      { temperature := 30, wind_speed := 10, humidity := 70,
        precipitation := 0, cloud_cover := 40 } ∧
    (∀ (te ws : Option ℚ) (hu pr cl : ℚ) (hus prs cls : List ℚ),
      Main.get_live_weather
          (.response (some ⟨te, ws⟩) (some ⟨hu :: hus, pr :: prs, cl :: cls⟩)) =
        { temperature := te.getD 30, wind_speed := ws.getD 10,
          humidity := hu, precipitation := pr, cloud_cover := cl }) ∧
    (∀ (m : Bool) (predict : ModelInput → ℚ) (reqPlace : String)
        (geo : GeoOutcome) (now : Date) (live live' : LiveOutcome),
      (Main.get_weather m predict reqPlace geo live now).isOk =
        (Main.get_weather m predict reqPlace geo live' now).isOk) := by
  refine ⟨fun o ho => ?_, rfl, fun te ws hu pr cl hus prs cls => rfl,
    fun m predict reqPlace geo now live live' => ?_⟩
  · match o with
    | .failure => rfl
    | .response none none => rfl
    | .response none (some _) => rfl
    | .response (some _) none => rfl
    | .response (some cw) (some h) =>
      match h with
      | ⟨[], _, _⟩ => rfl
      | ⟨_ :: _, [], _⟩ => rfl
      | ⟨_ :: _, _ :: _, []⟩ => rfl
      | ⟨_ :: _, _ :: _, _ :: _⟩ => simp [liveFailure] at ho
  · unfold Main.get_weather
    cases m with
    | false => rfl
    | true =>
      simp only [Bool.true_eq_false, if_false]
      by_cases hp : pyStrip reqPlace = ""
      · rw [if_pos hp, if_pos hp]
      · rw [if_neg hp, if_neg hp]
        match Main.get_location geo with
        | (none, _) => rfl
        | (some _, _) => rfl

theorem get_live_weather_total_with_fallback_witness :
    liveFailure (.response (some ⟨some 25, some 8⟩)
        (some ⟨[], [0.2], [50]⟩)) = true ∧
    Main.get_live_weather (.response (some ⟨some 25, some 8⟩)
        (some ⟨[], [0.2], [50]⟩)) = Main.fallbackLive :=
  ⟨rfl, get_live_weather_total_with_fallback.1
    (.response (some ⟨some 25, some 8⟩) (some ⟨[], [0.2], [50]⟩)) rfl⟩

/-- C10: on a failed hourly fetch/parse, `get_hourly_weather` returns the
five hardcoded points (10:00–14:00, 29–31 degrees) whatever `hours` and
`now` are, and `GET /hourly` serves them with a success status once the
place resolves. -/
theorem get_hourly_weather_fallback :
    (∀ (now hours : ℤ),
      Main.get_hourly_weather now hours .failure = Main.fallbackHourly) ∧
    Main.fallbackHourly =
      [⟨"10:00", 29⟩, ⟨"11:00", 30⟩, ⟨"12:00", 31⟩,
       ⟨"13:00", 32⟩, ⟨"14:00", 31⟩] ∧
    Main.fallbackHourly.length = 5 ∧
    (∀ (place : String) (hours : ℤ) (geo : GeoOutcome) (now : ℤ)
        (la : ℚ) (lo : Option ℚ),
      Main.get_location geo = (some la, lo) →
      Main.hourly_forecast place hours geo .failure now =
        .ok ⟨place, hours, Main.fallbackHourly⟩) := by
  refine ⟨fun now hours => rfl, rfl, rfl,
    fun place hours geo now la lo hgeo => ?_⟩
  unfold Main.hourly_forecast
  rw [hgeo]
  rfl

/-- C5 as stated is false on `src/main.py`: with a resolving place and a
failing upstream weather provider, `POST /weather` and `GET /forecast7`
both answer with a success value built from fallback data instead of
raising a 503 `ServiceUnavailable` fault. -/
theorem upstream_failure_counterexample :
    (Main.get_weather true (fun _ => 27) "Kochi"
        (.response (some [⟨9.9312, 76.2673⟩])) .failure
        ⟨2026, 10, 12⟩).isOk = true ∧
    Main.get_weather true (fun _ => 27) "Kochi"
        (.response (some [⟨9.9312, 76.2673⟩])) .failure ⟨2026, 10, 12⟩ ≠
      .error (.http 503 "Live weather unavailable") ∧
    (Main.forecast_7 "Kochi" (.response (some [⟨9.9312, 76.2673⟩])) .failure
        ⟨2026, 10, 12⟩).isOk = true := by
  have hok : (Main.get_weather true (fun _ => 27) "Kochi"
      (.response (some [⟨9.9312, 76.2673⟩])) .failure
      ⟨2026, 10, 12⟩).isOk = true := rfl
  refine ⟨hok, fun h => ?_, rfl⟩
  rw [h] at hok
  exact Bool.noConfusion hok

/-- C5 amended: when the upstream weather provider fails, `POST /weather`
returns a success response whose `live_weather` is derived from the fixed
fallback record `{30, 10, 70, 0, 40}`, and `GET /forecast7` returns a
success response of seven fallback days (tmax 30.0, tmin 24.0, dated from
today); no 503 is produced for these upstream failures. -/
theorem weather_endpoints_fallback_on_upstream_failure :
    (∀ (predict : ModelInput → ℚ) (reqPlace : String) (geo : GeoOutcome)
        (now : Date) (la : ℚ) (lo : Option ℚ),
      Main.get_location geo = (some la, lo) → pyStrip reqPlace ≠ "" →
      Main.get_weather true predict reqPlace geo .failure now =
        .ok { place := pyStrip reqPlace, lat := la, lon := lo,
              live_weather :=
                { temperature := 30, humidity := 70, precipitation := 0,
                  cloud_cover := 40, wind_speed := 10, feels_like := 67/2 },
              tomorrow_prediction :=
                { predicted_avg_temperature := roundTo 2 (predict
                    { tmin := 28, tmax := 32, prcp := 0, wspd := 10,
                      month := (nextDay now).month,
                      day := (nextDay now).day }),
                  rain_status := "Low chance of rain" } }) ∧
    (∀ (place : String) (geo : GeoOutcome) (today : Date)
        (la : ℚ) (lo : Option ℚ),
      Main.get_location geo = (some la, lo) →
      Main.forecast_7 place geo .failure today =
        .ok ⟨place, (List.range 7).map fun i =>
          ⟨fmtDate (addDays today i), 30, 24⟩⟩) := by
  constructor
  · intro predict reqPlace geo now la lo hgeo hplace
    unfold Main.get_weather
    rw [if_neg (by decide : ¬(true = false)), if_neg hplace, hgeo]
    norm_num [Main.get_live_weather, Main.fallbackLive, Main.predict_rain,
      roundTo, roundHalfEven]
  · intro place geo today la lo hgeo
    unfold Main.forecast_7 Main.get_weather_data
    rw [hgeo]
    norm_num [List.range_succ, List.replicate_succ, List.zip_cons_cons,
      roundTo, roundHalfEven]

theorem weather_endpoints_fallback_witness :
    (Main.get_location (.response (some [⟨9.9312, 76.2673⟩])) =
        (some 9.9312, some 76.2673) ∧ pyStrip "Kochi" ≠ "") ∧
    Main.get_weather true (fun m => m.wspd) "Kochi"
        (.response (some [⟨9.9312, 76.2673⟩])) .failure ⟨2026, 10, 12⟩ =
      .ok { place := "Kochi", lat := 9.9312, lon := some 76.2673,
            live_weather :=
              { temperature := 30, humidity := 70, precipitation := 0,
                cloud_cover := 40, wind_speed := 10, feels_like := 67/2 },
            tomorrow_prediction :=
              { predicted_avg_temperature := roundTo 2 10,
                rain_status := "Low chance of rain" } } ∧
    Main.forecast_7 "Kochi" (.response (some [⟨9.9312, 76.2673⟩])) .failure
        ⟨2026, 10, 12⟩ =
      .ok ⟨"Kochi", (List.range 7).map fun i =>
        ⟨fmtDate (addDays ⟨2026, 10, 12⟩ i), 30, 24⟩⟩ :=
  ⟨⟨rfl, by decide⟩,
   weather_endpoints_fallback_on_upstream_failure.1 (fun m => m.wspd) "Kochi"
     (.response (some [⟨9.9312, 76.2673⟩])) ⟨2026, 10, 12⟩ 9.9312
     (some 76.2673) rfl (by decide),
   weather_endpoints_fallback_on_upstream_failure.2 "Kochi"
     (.response (some [⟨9.9312, 76.2673⟩])) ⟨2026, 10, 12⟩ 9.9312
     (some 76.2673) rfl⟩

/-- C8: the feature row `POST /weather` hands to the temperature predictor
is exactly `tmin = currentTemp - 2`, `tmax = currentTemp + 2`, the
observation's precipitation and wind speed, and the month/day of the
calendar date one day after now: for every predictor, the reported
prediction is the (rounded) value of the predictor at precisely that row. -/
theorem get_weather_model_input (predict : ModelInput → ℚ)
    (reqPlace : String) (geo : GeoOutcome) (live : LiveOutcome) (now : Date)
    (la : ℚ) (lo : Option ℚ)
    (hgeo : Main.get_location geo = (some la, lo))
    (hplace : pyStrip reqPlace ≠ "") :
    (Main.get_weather true predict reqPlace geo live now).map
        (fun r => r.tomorrow_prediction.predicted_avg_temperature) =
      .ok (roundTo 2 (predict
        { tmin := (Main.get_live_weather live).temperature - 2,
          tmax := (Main.get_live_weather live).temperature + 2,
          prcp := (Main.get_live_weather live).precipitation,
          wspd := (Main.get_live_weather live).wind_speed,
          month := (nextDay now).month,
          day := (nextDay now).day })) := by
  unfold Main.get_weather
  rw [if_neg (by decide : ¬(true = false)), if_neg hplace, hgeo]
  rfl

theorem get_weather_model_input_witness :
    (Main.get_location (.response (some [⟨9.9312, 76.2673⟩])) =
        (some 9.9312, some 76.2673) ∧ pyStrip " Kochi " ≠ "") ∧
    (Main.get_weather true (fun m => m.tmin + m.tmax + m.prcp + m.wspd +
          m.month + m.day) " Kochi " (.response (some [⟨9.9312, 76.2673⟩]))
        (.response (some ⟨some 31, some 12⟩) (some ⟨[60], [1/2], [77]⟩))
        ⟨2026, 10, 12⟩).map
        (fun r => r.tomorrow_prediction.predicted_avg_temperature) =
      .ok (roundTo 2 ((fun m : ModelInput => m.tmin + m.tmax + m.prcp +
          m.wspd + m.month + m.day)
        { tmin := (Main.get_live_weather (.response (some ⟨some 31, some 12⟩)
            (some ⟨[60], [1/2], [77]⟩))).temperature - 2,
          tmax := (Main.get_live_weather (.response (some ⟨some 31, some 12⟩)
            (some ⟨[60], [1/2], [77]⟩))).temperature + 2,
          prcp := (Main.get_live_weather (.response (some ⟨some 31, some 12⟩)
            (some ⟨[60], [1/2], [77]⟩))).precipitation,
          wspd := (Main.get_live_weather (.response (some ⟨some 31, some 12⟩)
            (some ⟨[60], [1/2], [77]⟩))).wind_speed,
          month := (nextDay ⟨2026, 10, 12⟩).month,
          day := (nextDay ⟨2026, 10, 12⟩).day })) :=
  ⟨⟨rfl, by decide⟩,
   get_weather_model_input (fun m => m.tmin + m.tmax + m.prcp + m.wspd +
       m.month + m.day) " Kochi " (.response (some [⟨9.9312, 76.2673⟩]))
     (.response (some ⟨some 31, some 12⟩) (some ⟨[60], [1/2], [77]⟩))
     ⟨2026, 10, 12⟩ 9.9312 (some 76.2673) rfl (by decide)⟩

/-- The selection loop of `get_hourly_weather` computes the first
`n - acc.length` future entries, appended to the accumulator. -/
theorem hourlyLoop_eq (now : ℤ) (n : ℕ) (l : List (ℤ × ℚ)) :
    ∀ acc : List HourlyPoint, acc.length < n →
      Main.hourlyLoop now (n : ℤ) acc l =
        acc ++ (((l.filter fun p => now ≤ p.1).map
          fun p => Main.mkHourlyPoint p.1 p.2).take (n - acc.length)) := by
  induction l with
  | nil => intro acc hacc; simp [Main.hourlyLoop]
  | cons hd tl ih =>
    intro acc hacc
    obtain ⟨t, temp⟩ := hd
    simp only [Main.hourlyLoop]
    by_cases hle : now ≤ t
    · rw [if_pos hle, List.filter_cons_of_pos (by simpa using hle)]
      by_cases hlen : ((acc ++ [Main.mkHourlyPoint t temp]).length : ℤ) = (n : ℤ)
      · rw [if_pos hlen]
        have hn : acc.length + 1 = n := by
          simpa using Nat.cast_injective hlen
        have h1 : n - acc.length = 1 := by omega
        simp [h1]
      · rw [if_neg hlen]
        have hlt : (acc ++ [Main.mkHourlyPoint t temp]).length < n := by
          have hne : (acc ++ [Main.mkHourlyPoint t temp]).length ≠ n :=
            fun h => hlen (by exact_mod_cast h)
          simp only [List.length_append, List.length_singleton] at hne ⊢
          omega
        rw [ih _ hlt]
        have h2 : n - acc.length = (n - (acc ++ [Main.mkHourlyPoint t temp]).length) + 1 := by
          simp only [List.length_append, List.length_singleton]
          omega
        simp [h2, List.take_succ_cons]
    · rw [if_neg hle, List.filter_cons_of_neg (by simpa using hle)]
      have hne : ((acc : List HourlyPoint).length : ℤ) ≠ (n : ℤ) := by
        exact_mod_cast Nat.ne_of_lt hacc
      rw [if_neg hne, ih _ hacc]

/-- C1: on the success path, for a positive requested count, the window
returned by `get_hourly_weather` has at most `hours` entries, every entry
comes from a source timestamp `>= now`, the entries keep the original order
(the result is a sublist of the mapped input sequence), and when fewer than
`hours` future entries remain the whole future part is returned — a shorter
list, never an error. -/
theorem get_hourly_weather_window (series : List (ℤ × ℚ)) (now hours : ℤ)
    (hpos : 0 < hours) :
    ((Main.get_hourly_weather now hours (.ok series)).length : ℤ) ≤ hours ∧
    (∀ pt ∈ Main.get_hourly_weather now hours (.ok series),
      ∃ p ∈ series, now ≤ p.1 ∧ pt = Main.mkHourlyPoint p.1 p.2) ∧
    (Main.get_hourly_weather now hours (.ok series)).Sublist
      (series.map fun p => Main.mkHourlyPoint p.1 p.2) ∧
    (((series.filter fun p => now ≤ p.1).length : ℤ) < hours →
      Main.get_hourly_weather now hours (.ok series) =
        (series.filter fun p => now ≤ p.1).map
          fun p => Main.mkHourlyPoint p.1 p.2) := by
  have hcast : ((hours.toNat : ℕ) : ℤ) = hours := Int.toNat_of_nonneg hpos.le
  have hn : Main.get_hourly_weather now hours (.ok series) =
      ((series.filter fun p => now ≤ p.1).map
        fun p => Main.mkHourlyPoint p.1 p.2).take hours.toNat := by
    have h0 : ([] : List HourlyPoint).length < hours.toNat := by
      simp; omega
    have := hourlyLoop_eq now hours.toNat series [] h0
    rw [hcast] at this
    simpa [Main.get_hourly_weather] using this
  refine ⟨?_, ?_, ?_, ?_⟩
  · rw [hn]
    calc ((((series.filter fun p => now ≤ p.1).map
        fun p => Main.mkHourlyPoint p.1 p.2).take hours.toNat).length : ℤ)
        ≤ (hours.toNat : ℤ) := by
          have := List.length_take hours.toNat
            ((series.filter fun p => now ≤ p.1).map
              fun p => Main.mkHourlyPoint p.1 p.2)
          simp only [this]
          exact_mod_cast Nat.min_le_left _ _
      _ = hours := hcast
  · intro pt hpt
    rw [hn] at hpt
    have hpt' := (List.take_sublist _ _).subset hpt
    obtain ⟨p, hp, hmk⟩ := List.mem_map.mp hpt'
    obtain ⟨hps, hnow⟩ := List.mem_filter.mp hp
    exact ⟨p, hps, by simpa using hnow, hmk.symm⟩
  · rw [hn]
    exact (List.take_sublist _ _).trans ((List.filter_sublist _).map _)
  · intro hshort
    rw [hn]
    apply List.take_of_length_le
    rw [List.length_map]
    omega

theorem get_hourly_weather_window_witness :
    (0 : ℤ) < 2 ∧
    (((Main.get_hourly_weather 8 2 (.ok [(5, 20), (65, 21), (125, 22),
        (185, 23)])).length : ℤ) ≤ 2 ∧
     (∀ pt ∈ Main.get_hourly_weather 8 2 (.ok [(5, 20), (65, 21), (125, 22),
        (185, 23)]),
       ∃ p ∈ [((5 : ℤ), (20 : ℚ)), (65, 21), (125, 22), (185, 23)],
         8 ≤ p.1 ∧ pt = Main.mkHourlyPoint p.1 p.2) ∧
     (Main.get_hourly_weather 8 2 (.ok [(5, 20), (65, 21), (125, 22),
        (185, 23)])).Sublist
       ([((5 : ℤ), (20 : ℚ)), (65, 21), (125, 22), (185, 23)].map
         fun p => Main.mkHourlyPoint p.1 p.2) ∧
     ((([((5 : ℤ), (20 : ℚ)), (65, 21), (125, 22), (185, 23)].filter
          fun p => (8 : ℤ) ≤ p.1).length : ℤ) < 2 →
       Main.get_hourly_weather 8 2 (.ok [(5, 20), (65, 21), (125, 22),
          (185, 23)]) =
         ([((5 : ℤ), (20 : ℚ)), (65, 21), (125, 22), (185, 23)].filter
            fun p => (8 : ℤ) ≤ p.1).map
           fun p => Main.mkHourlyPoint p.1 p.2)) :=
  ⟨by decide,
   get_hourly_weather_window [(5, 20), (65, 21), (125, 22), (185, 23)] 8 2
     (by decide)⟩

theorem get_hourly_weather_fallback_witness :
    Main.get_location (.response (some [⟨9.9312, 76.2673⟩])) =
      (some 9.9312, some 76.2673) ∧
    Main.hourly_forecast "Kochi" 12 (.response (some [⟨9.9312, 76.2673⟩]))
        .failure 600 = .ok ⟨"Kochi", 12, Main.fallbackHourly⟩ :=
  ⟨rfl, get_hourly_weather_fallback.2.2.2 "Kochi" 12
    (.response (some [⟨9.9312, 76.2673⟩])) 600 9.9312 (some 76.2673) rfl⟩
